import Mathlib

/-!
Shallow embedding of the `f16` half-precision float library (`src/lib.rs`).

A compact float is its 16-bit pattern, modelled as a `Nat` below `2^16`.
Wide 32-bit / 64-bit IEEE-754 values enter and leave the conversion engine
only as their bit patterns (the Rust code transmutes them to `u32`/`u64`
immediately), so every function here maps bit patterns to bit patterns.
Rust release-mode unsigned arithmetic wraps, so `a - b` on `u32` is
embedded as `(a + 2^32 - b) % 2^32`, and `as u16` / `as u32` casts as
`% 2^16` / `% 2^32`.
-/

namespace Half

/-- Constant `NAN = f16(0xFE00)`. -/
def NAN : Nat := 0xFE00

/-- Predicate `f16::is_nan`: exponent field all ones and mantissa nonzero. -/
def is_nan (x : Nat) : Bool :=
  (x &&& 0x7C00 == 0x7C00) && (x &&& 0x03FF != 0)

/-- Predicate `f16::is_infinite`: exponent field all ones and mantissa zero. -/
def is_infinite (x : Nat) : Bool :=
  (x &&& 0x7C00 == 0x7C00) && (x &&& 0x03FF == 0)

/-- Predicate `f16::is_sign_positive`. -/
def is_sign_positive (x : Nat) : Bool := x &&& 0x8000 == 0

/-- Predicate `f16::is_sign_negative`. -/
def is_sign_negative (x : Nat) : Bool := x &&& 0x8000 != 0

/-- Function `f16::signum`: `self` if NaN, else only the sign bit kept. -/
def signum (x : Nat) : Nat :=
  if is_nan x then x else x &&& 0x8000

/-- Function `f16::from_f32`, on the `u32` bit pattern of the input
(`let x: u32 = transmute(value)`). Returns the 16-bit result pattern. -/
def from_f32 (x : Nat) : Nat :=
  if x &&& 0x7FFFFFFF = 0 then (x >>> 16) % 2^16
  else
    let sign := x &&& 0x80000000
    let exp := x &&& 0x7F800000
    let man := x &&& 0x007FFFFF
    if exp = 0 then (sign >>> 16) % 2^16
    else if exp = 0x7F800000 then
      if man = 0 then ((x >>> 16) ||| 0x7C00) % 2^16
      else NAN
    else
      let half_sign := sign >>> 16
      -- u32 wrapping subtraction: (exp >> 23) - 127
      let unbiased_exp := ((exp >>> 23) + 2^32 - 127) % 2^32
      let half_exp := (unbiased_exp + 15) % 2^32
      if half_exp ≥ 0x1F then (half_sign ||| 0x7C00) % 2^16
      else if half_exp ≤ 0 then
        if (14 + 2^32 - half_exp) % 2^32 > 24 then half_sign % 2^16
        else
          let man2 := man ||| 0x00800000
          let half_man := man2 >>> ((14 + 2^32 - half_exp) % 2^32)
          if (man2 >>> ((13 + 2^32 - half_exp) % 2^32)) &&& 0x1 ≠ 0 then
            (half_sign ||| (half_man + 1)) % 2^16
          else (half_sign ||| half_man) % 2^16
      else
        let half_exp2 := (half_exp <<< 10) % 2^32
        let half_man := man >>> 13
        if man &&& 0x00001000 ≠ 0 then
          ((half_sign ||| half_exp2 ||| half_man) + 1) % 2^16
        else (half_sign ||| half_exp2 ||| half_man) % 2^16

/-- Body of `f16::from_f64` after the initial truncation
`let x = (val >> 32) as u32;` of the `u64` bit pattern. -/
def from_f64_hi (x : Nat) : Nat :=
  if x &&& 0x7FFFFFFF = 0 then (x >>> 16) % 2^16
  else
    let sign := x &&& 0x80000000
    let exp := x &&& 0x7FF00000
    let man := x &&& 0x000FFFFF
    if exp = 0 then (sign >>> 16) % 2^16
    else if exp = 0x7FF00000 then
      if man = 0 then ((x >>> 16) ||| 0x7C00) % 2^16
      else NAN
    else
      let half_sign := sign >>> 16
      -- u32 wrapping subtraction: (exp >> 20) - 1023
      let unbiased_exp := ((exp >>> 20) + 2^32 - 1023) % 2^32
      let half_exp := (unbiased_exp + 15) % 2^32
      if half_exp ≥ 0x1F then (half_sign ||| 0x7C00) % 2^16
      else if half_exp ≤ 0 then
        if (10 + 2^32 - half_exp) % 2^32 > 21 then half_sign % 2^16
        else
          let man2 := man ||| 0x00100000
          let half_man := man2 >>> ((11 + 2^32 - half_exp) % 2^32)
          if (man2 >>> ((10 + 2^32 - half_exp) % 2^32)) &&& 0x1 ≠ 0 then
            (half_sign ||| (half_man + 1)) % 2^16
          else (half_sign ||| half_man) % 2^16
      else
        let half_exp2 := (half_exp <<< 10) % 2^32
        let half_man := man >>> 10
        if man &&& 0x00000200 ≠ 0 then
          ((half_sign ||| half_exp2 ||| half_man) + 1) % 2^16
        else (half_sign ||| half_exp2 ||| half_man) % 2^16

/-- Function `f16::from_f64`, on the `u64` bit pattern of the input: the code keeps
only the high 32 bits (`let x = (val >> 32) as u32;`) and proceeds as
`from_f64_hi`. -/
def from_f64 (v : Nat) : Nat :=
  from_f64_hi ((v >>> 32) % 2^32)

/-- The exponent-adjustment loop in `to_f32`/`to_f64`:
`while hm_adj & 0x400 == 0 { e_adj += 1; hm_adj <<= 1 }`, with fuel.
Reachable calls start from `half_man << 1` with `0 < half_man < 2^10`,
so at most 9 iterations occur and fuel 16 is never exhausted. -/
def e_adj_loop : Nat → Nat → Nat
  | 0, _ => 0
  | fuel + 1, hm =>
    if hm &&& 0x400 = 0 then e_adj_loop fuel (hm <<< 1) + 1 else 0

/-- Function `f16::to_f32`: 16-bit pattern to the `u32` bit pattern of the result
(the Rust code transmutes the assembled `u32` back to `f32`). -/
def to_f32 (b : Nat) : Nat :=
  if b &&& 0x7FFF = 0 then (b <<< 16) % 2^32
  else
    let half_sign := b &&& 0x8000
    let half_exp := b &&& 0x7C00
    let half_man := b &&& 0x03FF
    if half_exp = 0x7C00 then
      if half_man = 0 then (half_sign <<< 16) ||| 0x7F800000
      else 0xFFC00000
    else
      let sign := half_sign <<< 16
      -- i32 arithmetic: (half_exp as i32) >> 10, then - 15
      let unbiased_exp : Int := ((half_exp >>> 10 : Nat) : Int) - 15
      let man := (half_man &&& 0x03FF) <<< 13
      if half_exp = 0 then
        let e : Int := (e_adj_loop 16 (half_man <<< 1) : Nat)
        -- ((unbiased_exp + 127 - e) << 23) as u32
        let exp := (((unbiased_exp + 127 - e) * 2^23) % (2^32 : Int)).toNat
        sign ||| exp ||| man
      else
        let exp := (((unbiased_exp + 127) * 2^23) % (2^32 : Int)).toNat
        sign ||| exp ||| man

/-- Function `f16::to_f64`: 16-bit pattern to the `u64` bit pattern of the result. -/
def to_f64 (b : Nat) : Nat :=
  if b &&& 0x7FFF = 0 then (b <<< 48) % 2^64
  else
    let half_sign := b &&& 0x8000
    let half_exp := b &&& 0x7C00
    let half_man := b &&& 0x03FF
    if half_exp = 0x7C00 then
      if half_man = 0 then (half_sign <<< 48) ||| 0x7FF0000000000000
      else 0xFFF8000000000000
    else
      let sign := half_sign <<< 48
      let unbiased_exp : Int := ((half_exp >>> 10 : Nat) : Int) - 15
      let man := (half_man &&& 0x03FF) <<< 42
      if half_exp = 0 then
        let e : Int := (e_adj_loop 16 (half_man <<< 1) : Nat)
        let exp := (((unbiased_exp + 1023 - e) * 2^52) % (2^64 : Int)).toNat
        sign ||| exp ||| man
      else
        let exp := (((unbiased_exp + 1023) * 2^52) % (2^64 : Int)).toNat
        sign ||| exp ||| man

/-- Relation `PartialEq::eq for f16`:
`!self.is_nan() && !other.is_nan() && self.0 == other.0`. -/
def f16_eq (a b : Nat) : Bool :=
  !is_nan a && !is_nan b && (a == b)

/-- Method `partial_cmp` of `PartialOrd for f16` (named `pcmp` here): `None` if either
is NaN, else compare the raw patterns as unsigned integers, equal patterns
short-circuited to `Equal`. -/
def pcmp (a b : Nat) : Option Ordering :=
  if is_nan a || is_nan b then none
  else if a == b then some .eq
  else if a < b then some .lt
  else some .gt

/-- Method `lt` of `PartialOrd for f16`. -/
def f16_lt (a b : Nat) : Bool :=
  !is_nan a && !is_nan b && decide (a < b)

/-- Method `le` of `PartialOrd for f16`. -/
def f16_le (a b : Nat) : Bool :=
  !is_nan a && !is_nan b && decide (a ≤ b)

/-- Method `gt` of `PartialOrd for f16`. -/
def f16_gt (a b : Nat) : Bool :=
  !is_nan a && !is_nan b && decide (b < a)

/-- Method `ge` of `PartialOrd for f16`. -/
def f16_ge (a b : Nat) : Bool :=
  !is_nan a && !is_nan b && decide (b ≤ a)

/-- Helper: if the sub-mask `s` of `m` is fully set in `x`, then `x &&& m`
is nonzero. -/
theorem land_mask_ne_zero {x m s : Nat} (hms : m &&& s = s) (hxs : x &&& s = s)
    (hs : s ≠ 0) : x &&& m ≠ 0 := by
  intro h0
  apply hs
  calc s = x &&& s := hxs.symm
    _ = x &&& (m &&& s) := by rw [hms]
    _ = (x &&& m) &&& s := (Nat.land_assoc x m s).symm
    _ = 0 &&& s := by rw [h0]
    _ = 0 := Nat.zero_and s

end Half

/-- Claim C1: the claim asserts `from_f32 (to_f32 b) = b` for every non-NaN
pattern `b`. It fails already at `b = 0x7C00` (positive infinity, not a
NaN): the infinity branch of the narrowing returns `(x >> 16) | 0x7C00`,
which keeps the wide exponent bits `0x0380`, so the 32-bit round trip yields
`0x7F80` and the 64-bit round trip yields `0x7FF0` — both NaN patterns, not
`0x7C00`. This theorem evaluates the code at that failing input. -/
theorem C1_roundtrip_fails_at_infinity :
    Half.is_nan 0x7C00 = false ∧
    Half.from_f32 (Half.to_f32 0x7C00) = 0x7F80 ∧
    Half.from_f64 (Half.to_f64 0x7C00) = 0x7FF0 ∧
    Half.from_f32 (Half.to_f32 0x0001) = 0x7C00 ∧
    Half.from_f64 (Half.to_f64 0x0001) = 0x7C00 := by decide

/-- Claim C2: the claim asserts that `from_f32` maps every input of
magnitude below `2^-24` to signed zero. The code instead computes
`(exp >> 23) - 127 + 15` in unsigned 32-bit arithmetic; for the input
`0x2F000000` (the value `2^-33`, well below `2^-24`) the subtraction wraps,
the wrapped exponent trips the `>= 0x1F` overflow check, and the function
returns positive infinity `0x7C00` instead of `0x0000` (and `0xFC00`
instead of `0x8000` for the negated input). This theorem evaluates the
code at those failing inputs. -/
theorem C2_underflow_returns_infinity :
    Half.from_f32 0x2F000000 = 0x7C00 ∧
    Half.from_f32 0xAF000000 = 0xFC00 := by decide

/-- Claim C3: the claim asserts that widening the compact subnormal
`b = 0x0001` (value `2^-24`) is exact, i.e. yields `0x33800000` (f32) and
`0x3E70000000000000` (f64). The code adjusts only the exponent when
normalizing a subnormal and leaves the mantissa field as `half_man << 13`
(resp. `<< 42`), keeping the leading bit in the field instead of removing
it and left-aligning the remainder, so it produces `0x33802000` and
`0x3E70040000000000` — the wrong value `(1 + 2^-10) * 2^-24`. This theorem
evaluates the code at that failing input. -/
theorem C3_subnormal_widening_inexact :
    Half.to_f32 0x0001 = 0x33802000 ∧
    Half.to_f64 0x0001 = 0x3E70040000000000 := by decide

/-- Claim C4 counterexample: `0x7FF0000000000001` is a 64-bit NaN (exponent
all ones, mantissa nonzero — its payload sits in the low 32 mantissa bits),
yet `from_f64` returns `0x7FF0`, not the canonical NaN `0xFE00`: the code
first truncates the input to its high 32 bits, so the payload vanishes and
the infinity branch is taken. -/
theorem C4_low_payload_nan_not_canonical :
    Half.from_f64 0x7FF0000000000001 = 0x7FF0 ∧ (0x7FF0 : Nat) ≠ Half.NAN := by
  decide

/-- Claim C4 (amended): for every 64-bit input whose exponent field is all
ones and whose TOP 20 mantissa bits (bits 51..32) are nonzero — stated via
masks on the high 32-bit word, which carries the sign, the 11 exponent bits
and the top 20 mantissa bits — `from_f64` returns the canonical quiet-NaN
pattern `0xFE00`, regardless of sign. (NaNs whose payload sits only in the
low 32 mantissa bits are instead treated as infinities by the code.) -/
theorem C4_high_payload_nan_canonical (v : Nat) (hv : v < 2^64)
    (hexp : (v >>> 32) &&& 0x7FF00000 = 0x7FF00000)
    (hman : (v >>> 32) &&& 0x000FFFFF ≠ 0) :
    Half.from_f64 v = 0xFE00 := by
  have hlt : v >>> 32 < 2^32 := by
    rw [Nat.shiftRight_eq_div_pow]
    exact Nat.div_lt_of_lt_mul hv
  have h1 : (v >>> 32) &&& 0x7FFFFFFF ≠ 0 :=
    Half.land_mask_ne_zero (by decide) hexp (by decide)
  rw [Half.from_f64, Nat.mod_eq_of_lt hlt]
  unfold Half.from_f64_hi
  rw [if_neg h1]
  simp only [hexp]
  norm_num
  rw [if_neg hman]
  rfl

/-- Claim C4 witness: the quiet NaN `0x7FF8000000000000` satisfies the
hypotheses of the amended claim and maps to `0xFE00`. -/
theorem C4_witness :
    Half.from_f64 0x7FF8000000000000 = 0xFE00 :=
  C4_high_payload_nan_canonical 0x7FF8000000000000 (by decide) (by decide)
    (by decide)

/-- Claim C5: narrowing `65504.0f32` (bits `0x477FE000`) yields `0x7BFF`;
narrowing `65520.0f32` (bits `0x477FF000`, where the rounding increment
carries into the exponent field) and `70000.0f32` (bits `0x4788B800`,
exponent overflow) both yield positive infinity `0x7C00`. -/
theorem C5_max_finite_boundary :
    Half.from_f32 0x477FE000 = 0x7BFF ∧
    Half.from_f32 0x477FF000 = 0x7C00 ∧
    Half.from_f32 0x4788B800 = 0x7C00 := by decide

/-- Claim C6: for every 32-bit input whose exponent field is all ones and
whose mantissa field is nonzero (any 32-bit NaN, any sign, any payload),
`from_f32` returns the single fixed pattern `0xFE00`, and `is_nan` is true
on that result. -/
theorem C6_nan_canonicalization (x : Nat) (hx : x < 2^32)
    (hexp : x &&& 0x7F800000 = 0x7F800000) (hman : x &&& 0x007FFFFF ≠ 0) :
    Half.from_f32 x = 0xFE00 ∧ Half.is_nan (Half.from_f32 x) = true := by
  have h1 : x &&& 0x7FFFFFFF ≠ 0 :=
    Half.land_mask_ne_zero (by decide) hexp (by decide)
  have hmain : Half.from_f32 x = 0xFE00 := by
    unfold Half.from_f32
    rw [if_neg h1]
    simp only [hexp]
    norm_num
    rw [if_neg hman]
    rfl
  exact ⟨hmain, by rw [hmain]; decide⟩

/-- Claim C6 witness: the 32-bit quiet NaN `0x7FC00000` satisfies the
hypotheses and narrows to `0xFE00`, on which `is_nan` holds. -/
theorem C6_witness :
    Half.from_f32 0x7FC00000 = 0xFE00 ∧
    Half.is_nan (Half.from_f32 0x7FC00000) = true :=
  C6_nan_canonicalization 0x7FC00000 (by decide) (by decide) (by decide)

/-- Claim C7: for every pair of compact values, `partial_cmp` (here `pcmp`)
is `none` iff one operand is NaN; when neither is NaN it is `Equal` iff the
raw 16-bit patterns coincide, `Less` iff the first pattern is smaller as an
unsigned integer, and `Greater` otherwise; and the operators `<`, `<=`,
`>`, `>=` return false whenever either operand is NaN and otherwise agree
with the unsigned bit-pattern comparison. -/
theorem C7_partial_order_by_bits (a b : Nat) (ha : a < 2^16) (hb : b < 2^16) :
    (Half.pcmp a b = none ↔ (Half.is_nan a = true ∨ Half.is_nan b = true)) ∧
    (Half.is_nan a = false → Half.is_nan b = false →
      ((Half.pcmp a b = some .eq ↔ a = b) ∧
       (Half.pcmp a b = some .lt ↔ a < b) ∧
       (Half.pcmp a b = some .gt ↔ b < a))) ∧
    ((Half.is_nan a = true ∨ Half.is_nan b = true) →
      Half.f16_lt a b = false ∧ Half.f16_le a b = false ∧
      Half.f16_gt a b = false ∧ Half.f16_ge a b = false) ∧
    (Half.is_nan a = false → Half.is_nan b = false →
      ((Half.f16_lt a b = true ↔ a < b) ∧ (Half.f16_le a b = true ↔ a ≤ b) ∧
       (Half.f16_gt a b = true ↔ b < a) ∧ (Half.f16_ge a b = true ↔ b ≤ a))) := by
  refine ⟨?_, fun hna hnb => ?_, fun h => ?_, fun hna hnb => ?_⟩
  · cases hna : Half.is_nan a <;> cases hnb : Half.is_nan b <;>
      simp [Half.pcmp, hna, hnb]
    split <;> simp_all
    split <;> simp_all
  · have hcond : (Half.is_nan a || Half.is_nan b) = false := by
      rw [hna, hnb]; rfl
    rcases Nat.lt_trichotomy a b with h | h | h
    · have hne : a ≠ b := Nat.ne_of_lt h
      simp [Half.pcmp, hcond, hne, h, Nat.lt_asymm h]
    · subst h
      simp [Half.pcmp, hna, hcond, Nat.lt_irrefl]
    · have hne : a ≠ b := (Nat.ne_of_lt h).symm
      simp [Half.pcmp, hcond, hne, h, Nat.lt_asymm h]
  · rcases h with h | h <;>
      simp [Half.f16_lt, Half.f16_le, Half.f16_gt, Half.f16_ge, h]
  · simp [Half.f16_lt, Half.f16_le, Half.f16_gt, Half.f16_ge, hna, hnb]

/-- Claim C7 witness: at the concrete pair `(0x3C00, 0x4000)` (the values
`1.0` and `2.0`, neither NaN) the theorem yields `pcmp = some .lt`. -/
theorem C7_witness : Half.pcmp 0x3C00 0x4000 = some Ordering.lt :=
  (((C7_partial_order_by_bits 0x3C00 0x4000 (by decide) (by decide)).2.1
    (by decide) (by decide)).2.1).mpr (by decide)

/-- Claim C8: for every pair of compact values, `eq` returns true iff
neither operand is NaN and the raw 16-bit patterns are identical; in
particular every NaN pattern compares unequal to itself, and `0x0000`
(positive zero) compares unequal to `0x8000` (negative zero). -/
theorem C8_eq_by_bits (a b : Nat) (ha : a < 2^16) (hb : b < 2^16) :
    (Half.f16_eq a b = true ↔
      (Half.is_nan a = false ∧ Half.is_nan b = false ∧ a = b)) ∧
    (Half.is_nan a = true → Half.f16_eq a a = false) ∧
    Half.f16_eq 0x0000 0x8000 = false := by
  refine ⟨?_, fun h => ?_, by decide⟩
  · simp [Half.f16_eq, and_assoc]
  · simp [Half.f16_eq, h]

/-- Claim C8 witness: at `(0x3C00, 0x3C00)` the theorem's equivalence gives
`f16_eq 0x3C00 0x3C00 = true`. -/
theorem C8_witness : Half.f16_eq 0x3C00 0x3C00 = true :=
  (C8_eq_by_bits 0x3C00 0x3C00 (by decide) (by decide)).1.mpr
    ⟨by decide, by decide, rfl⟩

/-- Claim C9: for every compact value `x`, if `x` is NaN then `signum x`
is `x` unchanged; otherwise `signum x` is `x` masked to the sign bit alone,
its non-sign bits are all zero, and it equals `0x0000` or `0x8000` (a
signed zero, never a representation of one). -/
theorem C9_signum_signed_zero (x : Nat) (hx : x < 2^16) :
    (Half.is_nan x = true → Half.signum x = x) ∧
    (Half.is_nan x = false →
      Half.signum x = x &&& 0x8000 ∧
      Half.signum x &&& 0x7FFF = 0 ∧
      (Half.signum x = 0x0000 ∨ Half.signum x = 0x8000)) := by
  constructor
  · intro h; simp [Half.signum, h]
  · intro h
    have hs : Half.signum x = x &&& 0x8000 := by simp [Half.signum, h]
    refine ⟨hs, ?_, ?_⟩
    · rw [hs, Nat.land_assoc,
        show ((0x8000 : Nat) &&& 0x7FFF) = 0 from by decide]
      exact Nat.and_zero x
    · rw [hs, show (0x8000 : Nat) = 2^15 from rfl, Nat.and_two_pow]
      cases x.testBit 15 <;> norm_num

/-- Claim C9 witness: at `x = 0xC000` (the value `-2.0`, not NaN) the
theorem gives `signum 0xC000 = 0xC000 &&& 0x8000`, and evaluation confirms
that mask is `0x8000`. -/
theorem C9_witness :
    Half.signum 0xC000 = 0xC000 &&& 0x8000 :=
  ((C9_signum_signed_zero 0xC000 (by decide)).2 (by decide)).1

/-- Claim C10: for every pair of 64-bit input bit patterns that agree on
their 32 most significant bits, `from_f64` returns the same compact value:
the code truncates the input to `(val >> 32) as u32` before doing anything
else, so the low 32 bits of the 64-bit mantissa never influence the
output. -/
theorem C10_low_bits_no_influence (v w : Nat) (hv : v < 2^64) (hw : w < 2^64)
    (h : v >>> 32 = w >>> 32) : Half.from_f64 v = Half.from_f64 w := by
  rw [Half.from_f64, Half.from_f64, h]

/-- Claim C10 witness: `0x7FF0000012345678` and `0x7FF0000000000000` agree
on their high 32 bits and differ in the low 32, and `from_f64` maps them to
the same result. -/
theorem C10_witness :
    Half.from_f64 0x7FF0000012345678 = Half.from_f64 0x7FF0000000000000 :=
  C10_low_bits_no_influence 0x7FF0000012345678 0x7FF0000000000000
    (by decide) (by decide) (by decide)
